import Mathlib

/-!
Shallow embedding of the SolarEdge telegraf input plugin
(`plugins/inputs/solaredge/solaredge.go`) and proofs about its `Gather`
collection cycle.

The Go code depends on the standard library packages `time`, `net/http`,
`net/url` and `encoding/json`; those are modelled here by executable Lean
functions that follow the stdlib implementations (the hierarchical
400/100/4/1-year cycle arithmetic of `time.absDate` and
`time.daysSinceEpoch`, zero-value-on-missing-key structural decoding for
`encoding/json`, and — for `http.Get` — the package-level default client).
Time zones are modelled as fixed UTC offsets in seconds; instants are
nanoseconds since the Unix epoch, as in Go's `time.Time`.  Division is
`Int` division (`Int.ediv`), which agrees with Go's unsigned arithmetic on
the nonnegative ranges the stdlib code operates on.
-/

namespace Solaredge

/-- A civil (proleptic Gregorian) date: year, month (1-12), day (1-31). -/
structure Civil where
  year : Int
  month : Int
  day : Int
deriving DecidableEq, Repr

/-- `daysBefore m` is the number of days in a non-leap year before month
`m+1` begins; the cumulative-days table `daysBefore` of Go `time`. -/
def daysBefore (m : Int) : Int :=
  if m ≤ 0 then 0
  else if m = 1 then 31
  else if m = 2 then 59
  else if m = 3 then 90
  else if m = 4 then 120
  else if m = 5 then 151
  else if m = 6 then 181
  else if m = 7 then 212
  else if m = 8 then 243
  else if m = 9 then 273
  else if m = 10 then 304
  else if m = 11 then 334
  else 365

/-- Gregorian leap-year test (Go `time.isLeap`). -/
def isLeap (y : Int) : Bool :=
  y % 4 = 0 && (y % 100 ≠ 0 || y % 400 = 0)

/-- Number of days in month `m` of year `y` (Go `time.daysIn`). -/
def daysInMonth (y m : Int) : Int :=
  if m = 2 ∧ isLeap y = true then 29 else daysBefore m - daysBefore (m - 1)

/-- Final step of Go `time.absDate`: cut off whole years within a 4-year
cycle (`n = d / 365; n -= n >> 2`). -/
def yearYdayStep4 (y d : Int) : Int × Int :=
  let n := d / 365
  let nc := n - n / 4
  (y + nc, d - 365 * nc)

/-- Go `time.absDate`: cut off 4-year cycles (`n = d / 1461`). -/
def yearYdayStep3 (y d : Int) : Int × Int :=
  let n := d / 1461
  yearYdayStep4 (y + 4 * n) (d - 1461 * n)

/-- Go `time.absDate`: cut off 100-year cycles
(`n = d / 36524; n -= n >> 2`). -/
def yearYdayStep2 (y d : Int) : Int × Int :=
  let n := d / 36524
  let nc := n - n / 4
  yearYdayStep3 (y + 100 * nc) (d - 36524 * nc)

/-- The year/day-of-year part of Go `time.absDate`, on days counted from
January 1 of year 1 (the `y + 1` is Go's `year = int(y) + 1`). -/
def absYearYday (d : Int) : Int × Int :=
  let n := d / 146097
  let p := yearYdayStep2 (400 * n) (d - 146097 * n)
  (p.1 + 1, p.2)

/-- The tail of Go `time.absDate`: estimate the month assuming 31-day
months, then correct the estimate against the `daysBefore` table. -/
def monthDayEstimate (day : Int) : Int × Int :=
  let m0 := day / 31 + 1
  if daysBefore m0 ≤ day then (m0 + 1, day - daysBefore m0 + 1)
  else (m0, day - daysBefore (m0 - 1) + 1)

/-- The month/day part of Go `time.absDate` (`full = true` branch):
leap-day adjustment, then the month estimate. -/
def monthDayFromYday (leap : Bool) (yday : Int) : Int × Int :=
  if leap = true then
    if yday = 59 then (2, 29)
    else if 59 < yday then monthDayEstimate (yday - 1)
    else monthDayEstimate yday
  else monthDayEstimate yday

/-- Days since January 1 of year 1 → civil date (Go `time.absDate`). -/
def civilFromAbsDays (d : Int) : Civil :=
  let p := absYearYday d
  let q := monthDayFromYday (isLeap p.1) p.2
  ⟨p.1, q.1, q.2⟩

/-- Civil year → days from January 1 of year 1 to January 1 of that year
(Go `time.daysSinceEpoch`, with the absolute epoch shifted to year 1). -/
def daysSinceYearOne (year : Int) : Int :=
  let y := year - 1
  let n400 := y / 400
  let y1 := y - 400 * n400
  let n100 := y1 / 100
  let y2 := y1 - 100 * n100
  let n4 := y2 / 4
  let y3 := y2 - 4 * n4
  146097 * n400 + 36524 * n100 + 1461 * n4 + 365 * y3

/-- Civil date → days since January 1 of year 1 (the day computation of Go
`time.Date`). -/
def absDaysFromCivil (c : Civil) : Int :=
  daysSinceYearOne c.year + daysBefore (c.month - 1) +
    (if isLeap c.year = true ∧ 3 ≤ c.month then 1 else 0) + c.day - 1

/-- A broken-down wall-clock time, as produced by Go `time.Time.Date` and
`Clock`. -/
structure DateTime where
  year : Int
  month : Int
  day : Int
  hour : Int
  minute : Int
  second : Int
deriving DecidableEq, Repr

/-- Unix seconds plus zone offset to broken-down time (Go `Time.date` via
`Time.abs`; `62135596800` is Go's `unixToInternal + internalToAbsolute`,
the seconds from January 1 of year 1 to the Unix epoch). -/
def dateTimeFromUnix (off sec : Int) : DateTime :=
  let abs := sec + off + 62135596800
  let days := abs / 86400
  let rem := abs % 86400
  let c := civilFromAbsDays days
  ⟨c.year, c.month, c.day, rem / 3600, rem % 3600 / 60, rem % 60⟩

/-- Broken-down time in a fixed-offset zone back to Unix seconds (the
instant computation of Go `time.Date`). -/
def unixFromDateTime (off : Int) (dt : DateTime) : Int :=
  absDaysFromCivil ⟨dt.year, dt.month, dt.day⟩ * 86400 +
    dt.hour * 3600 + dt.minute * 60 + dt.second - 62135596800 - off

/-- The digit characters used by Go's `appendInt` formatting. -/
def digitChar (n : Nat) : Char := Char.ofNat (48 + n)

/-- Two-digit zero-padded rendering (layout elements `01`, `02`, `15`,
`04`, `05`). -/
def pad2 (n : Nat) : List Char := [digitChar (n / 10), digitChar (n % 10)]

/-- Four-digit zero-padded rendering (the fast path of Go `appendInt`
with width 4, for values below 10000). -/
def pad4 (n : Nat) : List Char :=
  [digitChar (n / 1000), digitChar (n / 100 % 10), digitChar (n / 10 % 10), digitChar (n % 10)]

/-- Decimal digits of a natural number, most significant first.  The
fuel argument (`n + 1` at the call site, always sufficient since a
number has at most `n + 1` digits) makes the recursion structural. -/
def decimalDigitsAux (fuel n : Nat) : List Char :=
  match fuel with
  | 0 => []
  | f + 1 =>
    if n < 10 then [digitChar n]
    else decimalDigitsAux f (n / 10) ++ [digitChar (n % 10)]

/-- Decimal digits of a natural number, most significant first. -/
def decimalDigits (n : Nat) : List Char := decimalDigitsAux (n + 1) n

/-- Left-pad a digit string with zeros up to width `w` (the 0-padding
loop of Go `appendInt`). -/
def leftPadZeros (w : Nat) (ds : List Char) : List Char :=
  List.replicate (w - ds.length) (digitChar 0) ++ ds

/-- Go `appendInt(b, x, 4)`, the rendering of the `2006` layout element:
a sign for negative values, then the decimal digits zero-padded to at
least four — five or more digits are emitted in full for years beyond
9999. -/
def appendInt4 (x : Int) : List Char :=
  if x < 0 then '-' :: leftPadZeros 4 (decimalDigits (-x).toNat)
  else leftPadZeros 4 (decimalDigits x.toNat)

/-- Go `Time.Format` with layout `"2006-01-02 15:04:05"` applied to a
broken-down time. -/
def renderDateTime (dt : DateTime) : List Char :=
  appendInt4 dt.year ++ '-' :: (pad2 dt.month.toNat ++ '-' :: (pad2 dt.day.toNat ++
    ' ' :: (pad2 dt.hour.toNat ++ ':' :: (pad2 dt.minute.toNat ++ ':' :: pad2 dt.second.toNat))))

/-- Go `Time.Format` with layout `"2006-01-02 15:04:05"` on an instant
`t` in nanoseconds, in a fixed-offset zone. -/
def goFormat (off t : Int) : String :=
  ⟨renderDateTime (dateTimeFromUnix off (t / 1000000000))⟩

/-- Value of a decimal digit character (Go `getnum`). -/
def digitVal (c : Char) : Option Int :=
  if 48 ≤ c.toNat ∧ c.toNat ≤ 57 then some ((c.toNat : Int) - 48) else none

/-- The `2006` (stdLongYear) element of Go `time.Parse`: exactly four
decimal digits. -/
def getYear4 (cs : List Char) : Option (Int × List Char) :=
  match cs with
  | y1 :: y2 :: y3 :: y4 :: rest =>
    match digitVal y1, digitVal y2, digitVal y3, digitVal y4 with
    | some a, some b, some c, some d => some (1000 * a + 100 * b + 10 * c + d, rest)
    | _, _, _, _ => none
  | _ => none

/-- Go `time.getnum`: one or two decimal digits; `fixed = true` (the
zero-padded layout elements `01`, `02`, `04`, `05`) demands two digits,
`fixed = false` (the hour element `15`) also accepts a single digit. -/
def getnum2 (fixed : Bool) (cs : List Char) : Option (Int × List Char) :=
  match cs with
  | c1 :: c2 :: rest =>
    match digitVal c1, digitVal c2 with
    | some a, some b => some (10 * a + b, rest)
    | some a, none => if fixed = true then none else some (a, c2 :: rest)
    | none, _ => none
  | [c1] =>
    match digitVal c1 with
    | some a => if fixed = true then none else some (a, [])
    | none => none
  | [] => none

/-- Consume a literal layout separator. -/
def expectChar (c : Char) (cs : List Char) : Option (List Char) :=
  match cs with
  | c1 :: rest => if c1 = c then some rest else none
  | [] => none

/-- Split off a maximal run of decimal digits (as digit values). -/
def spanDigits (cs : List Char) : List Int × List Char :=
  match cs with
  | c :: rest =>
    match digitVal c with
    | some d =>
      let p := spanDigits rest
      (d :: p.1, p.2)
    | none => ([], c :: rest)
  | [] => ([], [])

/-- Go `time.parseNanoseconds`: the value of the first nine fractional
digits, scaled to nanoseconds; further digits are consumed but ignored. -/
def nsOfDigits (ds : List Int) : Int :=
  (ds.take 9).foldl (fun a d => a * 10 + d) 0 * 10 ^ (9 - min 9 ds.length)

/-- The fractional-second special case of Go `time.Parse`: even though
the layout has no fraction, a comma or period followed by at least one
digit after the seconds is accepted and parsed as nanoseconds. -/
def parseFrac (cs : List Char) : Int × List Char :=
  match cs with
  | c1 :: c2 :: rest =>
    if (c1 = '.' ∨ c1 = ',') ∧ (digitVal c2).isSome = true then
      let p := spanDigits (c2 :: rest)
      (nsOfDigits p.1, p.2)
    else (0, c1 :: c2 :: rest)
  | other => (0, other)

/-- The field-extraction walk of Go `time.Parse` for the layout
`"2006-01-02 15:04:05"`: four-digit year, fixed two-digit month, day,
minute and second, a one-or-two-digit hour (Go's `getnum` is non-fixed
for the `15` element), literal separators, an optional fractional
second, and nothing left over.  Returns the fields and the fractional
nanoseconds. -/
def parseChars (cs : List Char) : Option (DateTime × Int) :=
  match getYear4 cs with
  | none => none
  | some (y, cs1) =>
    match expectChar '-' cs1 with
    | none => none
    | some cs2 =>
      match getnum2 true cs2 with
      | none => none
      | some (mo, cs3) =>
        match expectChar '-' cs3 with
        | none => none
        | some cs4 =>
          match getnum2 true cs4 with
          | none => none
          | some (dy, cs5) =>
            match expectChar ' ' cs5 with
            | none => none
            | some cs6 =>
              match getnum2 false cs6 with
              | none => none
              | some (hr, cs7) =>
                match expectChar ':' cs7 with
                | none => none
                | some cs8 =>
                  match getnum2 true cs8 with
                  | none => none
                  | some (mi, cs9) =>
                    match expectChar ':' cs9 with
                    | none => none
                    | some cs10 =>
                      match getnum2 true cs10 with
                      | none => none
                      | some (se, cs11) =>
                        match parseFrac cs11 with
                        | (nsec, []) => some (⟨y, mo, dy, hr, mi, se⟩, nsec)
                        | (_, _ :: _) => none

/-- Go `time.ParseInLocation` with layout `"2006-01-02 15:04:05"` for a
fixed-offset zone: extract the fields, apply Go `Parse`'s range
validation (month, day against `daysIn`, hour, minute, second), then
build the instant with `time.Date`.  Returns nanoseconds. -/
def goParseInLocation (s : String) (off : Int) : Option Int :=
  match parseChars s.data with
  | none => none
  | some (dt, nsec) =>
    if 1 ≤ dt.month ∧ dt.month ≤ 12 ∧ 1 ≤ dt.day ∧ dt.day ≤ daysInMonth dt.year dt.month ∧
        0 ≤ dt.hour ∧ dt.hour ≤ 23 ∧ 0 ≤ dt.minute ∧ dt.minute ≤ 59 ∧
        0 ≤ dt.second ∧ dt.second ≤ 59 then
      some (unixFromDateTime off dt * 1000000000 + nsec)
    else none

/-- JSON values (`encoding/json`); numbers are modelled as rationals. -/
inductive Json where
  | null
  | bool (b : Bool)
  | num (x : Rat)
  | str (s : String)
  | arr (elems : List Json)
  | obj (fields : List (String × Json))
deriving Repr

/-- Field values of an emitted point (the `map[string]interface{}` values
in `Gather`: `float64`s and one `string`). -/
inductive FieldValue where
  | num (x : Rat)
  | str (s : String)
deriving DecidableEq, Repr

/-- The anonymous `L1Data` struct nested in `Equipment`. -/
structure L1Data where
  acCurrent : Rat
  acVoltage : Rat
  acFrequency : Rat
  apparentPower : Rat
  activePower : Rat
  reactivePower : Rat
  cosPhi : Rat
deriving DecidableEq, Repr

/-- One element of `Equipment.Data.Telemetries`. -/
structure Telemetry where
  date : String
  totalActivePower : Rat
  dcVoltage : Rat
  groundFaultResistance : Rat
  powerLimit : Rat
  totalEnergy : Rat
  temperature : Rat
  inverterMode : String
  l1Data : L1Data
deriving DecidableEq, Repr

/-- The anonymous `Data` struct of `Equipment`. -/
structure EquipmentData where
  count : Int
  telemetries : List Telemetry
deriving DecidableEq, Repr

/-- The `Equipment` decode target of `Gather`. -/
structure Equipment where
  data : EquipmentData
deriving DecidableEq, Repr

def zeroL1 : L1Data := ⟨0, 0, 0, 0, 0, 0, 0⟩

def zeroTelemetry : Telemetry := ⟨"", 0, 0, 0, 0, 0, 0, "", zeroL1⟩

def zeroEquipment : Equipment := ⟨⟨0, []⟩⟩

/-- `encoding/json` decode of a JSON value into a `float64` field:
`null` is a no-op, a number is stored, anything else is a type error. -/
def decodeFloatInto (v : Json) (cur : Rat) : Except String Rat :=
  match v with
  | .null => .ok cur
  | .num x => .ok x
  | _ => .error "cannot unmarshal into float64"

/-- `encoding/json` decode of a JSON value into a `string` field. -/
def decodeStringInto (v : Json) (cur : String) : Except String String :=
  match v with
  | .null => .ok cur
  | .str s => .ok s
  | _ => .error "cannot unmarshal into string"

/-- `encoding/json` decode of a JSON value into an `int` field; a
non-integer number is a type error. -/
def decodeIntInto (v : Json) (cur : Int) : Except String Int :=
  match v with
  | .null => .ok cur
  | .num x => if x.den = 1 then .ok x.num else .error "cannot unmarshal into int"
  | _ => .error "cannot unmarshal into int"

/-- ASCII lower-casing of one character (identity elsewhere). -/
def asciiLower (c : Char) : Char :=
  if 65 ≤ c.toNat ∧ c.toNat ≤ 90 then Char.ofNat (c.toNat + 32) else c

/-- One-character case folding as used by Go `strings.EqualFold` when
the other side is ASCII: the two ASCII case variants, plus the only two
non-ASCII runes whose Unicode simple-fold orbit contains an ASCII
letter — LATIN SMALL LETTER LONG S (U+017F, folds with `s`) and the
KELVIN SIGN (U+212A, folds with `k`). -/
def charEqualFold (a b : Char) : Bool :=
  asciiLower a = asciiLower b ||
  ((a.toNat = 383 || asciiLower a = 's') && (b.toNat = 383 || asciiLower b = 's')) ||
  ((a.toNat = 8490 || asciiLower a = 'k') && (b.toNat = 8490 || asciiLower b = 'k'))

def charsEqualFold : List Char → List Char → Bool
  | [], [] => true
  | a :: as, b :: bs => charEqualFold a b && charsEqualFold as bs
  | _, _ => false

/-- Go `strings.EqualFold`, for strings compared against the ASCII
JSON-tag names of this package's structs (where the folding above is
exact). -/
def equalFold (s t : String) : Bool := charsEqualFold s.data t.data

/-- Store one JSON object entry into an `L1Data` struct; unknown keys are
ignored, as `encoding/json` does.  `encoding/json` matches an object key
to a field's tag name exactly or, as a fallback, case-insensitively
(`EqualFold`); since no key can fold-match two different tag names here,
the chain of fold tests below reproduces that behavior. -/
def applyL1Key (t : L1Data) (k : String) (v : Json) : Except String L1Data :=
  if equalFold k "acCurrent" = true then (decodeFloatInto v t.acCurrent).map (fun x => {t with acCurrent := x})
  else if equalFold k "acVoltage" = true then (decodeFloatInto v t.acVoltage).map (fun x => {t with acVoltage := x})
  else if equalFold k "acFrequency" = true then (decodeFloatInto v t.acFrequency).map (fun x => {t with acFrequency := x})
  else if equalFold k "apparentPower" = true then (decodeFloatInto v t.apparentPower).map (fun x => {t with apparentPower := x})
  else if equalFold k "activePower" = true then (decodeFloatInto v t.activePower).map (fun x => {t with activePower := x})
  else if equalFold k "reactivePower" = true then (decodeFloatInto v t.reactivePower).map (fun x => {t with reactivePower := x})
  else if equalFold k "cosPhi" = true then (decodeFloatInto v t.cosPhi).map (fun x => {t with cosPhi := x})
  else .ok t

/-- Decode a JSON value into the nested `L1Data` struct. -/
def decodeL1 (v : Json) (cur : L1Data) : Except String L1Data :=
  match v with
  | .null => .ok cur
  | .obj kvs => kvs.foldlM (fun acc kv => applyL1Key acc kv.1 kv.2) cur
  | _ => .error "cannot unmarshal into struct"

/-- Store one JSON object entry into a `Telemetry` struct. -/
def applyTelemetryKey (t : Telemetry) (k : String) (v : Json) : Except String Telemetry :=
  if equalFold k "date" = true then (decodeStringInto v t.date).map (fun x => {t with date := x})
  else if equalFold k "totalActivePower" = true then (decodeFloatInto v t.totalActivePower).map (fun x => {t with totalActivePower := x})
  else if equalFold k "dcVoltage" = true then (decodeFloatInto v t.dcVoltage).map (fun x => {t with dcVoltage := x})
  else if equalFold k "groundFaultResistance" = true then (decodeFloatInto v t.groundFaultResistance).map (fun x => {t with groundFaultResistance := x})
  else if equalFold k "powerLimit" = true then (decodeFloatInto v t.powerLimit).map (fun x => {t with powerLimit := x})
  else if equalFold k "totalEnergy" = true then (decodeFloatInto v t.totalEnergy).map (fun x => {t with totalEnergy := x})
  else if equalFold k "temperature" = true then (decodeFloatInto v t.temperature).map (fun x => {t with temperature := x})
  else if equalFold k "inverterMode" = true then (decodeStringInto v t.inverterMode).map (fun x => {t with inverterMode := x})
  else if equalFold k "L1Data" = true then (decodeL1 v t.l1Data).map (fun x => {t with l1Data := x})
  else .ok t

/-- Decode one element of the `telemetries` array. -/
def decodeTelemetry (v : Json) : Except String Telemetry :=
  match v with
  | .null => .ok zeroTelemetry
  | .obj kvs => kvs.foldlM (fun acc kv => applyTelemetryKey acc kv.1 kv.2) zeroTelemetry
  | _ => .error "cannot unmarshal into struct"

/-- Decode a JSON value into the `telemetries` slice. -/
def decodeTelemetries (v : Json) (cur : List Telemetry) : Except String (List Telemetry) :=
  match v with
  | .null => .ok cur
  | .arr es => es.mapM decodeTelemetry
  | _ => .error "cannot unmarshal into slice"

/-- Store one JSON object entry into the `Data` struct. -/
def applyDataKey (d : EquipmentData) (k : String) (v : Json) : Except String EquipmentData :=
  if equalFold k "count" = true then (decodeIntInto v d.count).map (fun x => {d with count := x})
  else if equalFold k "telemetries" = true then (decodeTelemetries v d.telemetries).map (fun x => {d with telemetries := x})
  else .ok d

/-- Decode Json into the `Data` struct. -/
def decodeEquipmentData (v : Json) (cur : EquipmentData) : Except String EquipmentData :=
  match v with
  | .null => .ok cur
  | .obj kvs => kvs.foldlM (fun acc kv => applyDataKey acc kv.1 kv.2) cur
  | _ => .error "cannot unmarshal into struct"

/-- Store one JSON object entry into an `Equipment` struct. -/
def applyEquipmentKey (e : Equipment) (k : String) (v : Json) : Except String Equipment :=
  if equalFold k "data" = true then (decodeEquipmentData v e.data).map (fun x => {e with data := x})
  else .ok e

/-- `json.NewDecoder(resp.Body).Decode(&target)` with `target : Equipment`
starting from the zero value. -/
def decodeEquipment (v : Json) : Except String Equipment :=
  match v with
  | .null => .ok zeroEquipment
  | .obj kvs => kvs.foldlM (fun acc kv => applyEquipmentKey acc kv.1 kv.2) zeroEquipment
  | _ => .error "cannot unmarshal into struct"

/-- An `http.Client` as configured by `Gather`: `Transport`'s
`ResponseHeaderTimeout` and the client's overall `Timeout`, both in
nanoseconds; `0` means no timeout, as in Go. -/
structure HTTPClientModel where
  responseHeaderTimeout : Int
  timeout : Int
deriving DecidableEq, Repr

/-- Go `http.DefaultClient`, i.e. `&http.Client{}`: zero values
throughout, hence no response-header timeout and no overall timeout. -/
def goDefaultClient : HTTPClientModel := ⟨0, 0⟩

/-- The `SolarEdge` collector struct.  `client = none` models a
`RealHTTPClient` whose inner `*http.Client` is still `nil`.
`ResponseTimeout` is `internal.Duration` in nanoseconds. -/
structure SolarEdge where
  Name : String
  SiteID : String
  SerialNumber : String
  APIKey : String
  TimeZone : String
  ResponseTimeout : Int
  client : Option HTTPClientModel
deriving DecidableEq, Repr

/-- The collector value built by the plugin's `init` registration:
zero-valued configuration, `ResponseTimeout` 5s, no inner HTTP client. -/
def defaultSolarEdge : SolarEdge := ⟨"", "", "", "", "", 5000000000, none⟩

/-- The errors `Gather` can return, one per `return err`/`fmt.Errorf`
site. -/
inductive GatherError where
  | invalidURL (u : String)
  | network
  | unexpectedStatus (got want : Nat)
  | decodeFailure (msg : String)
  | timestampParse (s : String)
deriving DecidableEq, Repr

/-- One `acc.AddFields(s.Name, fields, tags, date)` call. -/
structure Point where
  measurement : String
  fields : List (String × FieldValue)
  tags : List (String × String)
  time : Int
deriving DecidableEq, Repr

/-- The `fields` map built for one telemetry sample, as an association
list in the source's insertion order. -/
def telemetryFields (responseTime : Rat) (t : Telemetry) : List (String × FieldValue) :=
  [("response_time", .num responseTime),
   ("totalActivePower", .num t.totalActivePower),
   ("dcVoltage", .num t.dcVoltage),
   ("groundFaultResistance", .num t.groundFaultResistance),
   ("powerLimit", .num t.powerLimit),
   ("totalEnergy", .num t.totalEnergy),
   ("temperature", .num t.temperature),
   ("inverterMode", .str t.inverterMode),
   ("acCurrent", .num t.l1Data.acCurrent),
   ("acVoltage", .num t.l1Data.acVoltage),
   ("acFrequency", .num t.l1Data.acFrequency),
   ("apparentPower", .num t.l1Data.apparentPower),
   ("activePower", .num t.l1Data.activePower),
   ("reactivePower", .num t.l1Data.reactivePower),
   ("cosPhi", .num t.l1Data.cosPhi)]

/-- The `for _, telemetry := range target.Data.Telemetries` loop of
`Gather`: each sample's date is parsed and, on success, its point is
handed to the accumulator immediately; a parse failure returns the error,
leaving the points already added.  Returns the points that reached the
accumulator and the loop's error, if any. -/
def mapTelemetries (name : String) (off : Int) (responseTime : Rat) :
    List Telemetry → List Point × Option GatherError
  | [] => ([], none)
  | t :: rest =>
    match goParseInLocation t.date off with
    | none => ([], some (.timestampParse t.date))
    | some date =>
      let p : Point := ⟨name, telemetryFields responseTime t, [], date⟩
      let pr := mapTelemetries name off responseTime rest
      (p :: pr.1, pr.2)

/-- Whether a string contains an ASCII control character — the main
condition under which Go `url.Parse` rejects a URL string.  (Go also
rejects malformed percent-escapes in the path, and a `?` inside
`SiteID`/`SerialNumber` would shift the remainder into the query; both
are orthogonal to the properties proved here, which assume this check
passes.) -/
def containsCtl (s : String) : Bool :=
  s.data.any (fun c => c.toNat < 32 || c.toNat == 127)

def serverURL : String := "https://monitoringapi.solaredge.com/equipment"

/-- One HTTP exchange as seen by the collector: the status code and the
response body (`none` models a body that is not syntactically valid
JSON). -/
structure HTTPResponse where
  statusCode : Nat
  body : Option Json
deriving Repr

/-- The environment of one `Gather` call: the zone database's answer for
`s.TimeZone` (a fixed offset in seconds, `none` = unknown zone name),
`time.Now()` in nanoseconds, the outcome of the HTTP `GET` (`none` =
transport error), and the measured request latency in seconds. -/
structure World where
  resolveZone : Option Int
  now : Int
  response : Option HTTPResponse
  responseTime : Rat
deriving Repr

/-- The request `Gather` issues: URL path, encoded query parameters
(sorted by key, as `url.Values.Encode` does) and the client the `GET`
actually uses. -/
structure RequestInfo where
  path : String
  params : List (String × String)
  clientUsed : HTTPClientModel
deriving Repr

/-- How one `Gather` call ended. -/
inductive GatherResult where
  | ok
  | failed (e : GatherError)
  | panicked (msg : String)
deriving DecidableEq, Repr

/-- Everything one `Gather` call did: the collector state afterwards, the
request it issued (if it got that far), the points handed to the
accumulator, and the outcome. -/
structure CycleOutput where
  state : SolarEdge
  request : Option RequestInfo
  emitted : List Point
  result : GatherResult
deriving Repr

/-- The lazy client initialization at the top of `Gather` (lines
106-115): if the inner `*http.Client` is `nil`, build one with
`ResponseHeaderTimeout` and `Timeout` both set to `s.ResponseTimeout`. -/
def ensureClient (s : SolarEdge) : SolarEdge :=
  if s.client = none then
    {s with client := some ⟨s.ResponseTimeout, s.ResponseTimeout⟩}
  else s

/-- `fmt.Sprintf("%s/%s/%s/data", serverURL, s.SiteID, s.SerialNumber)`. -/
def equipmentURLOf (s : SolarEdge) : String :=
  serverURL ++ "/" ++ s.SiteID ++ "/" ++ s.SerialNumber ++ "/data"

/-- The encoded query parameters of the request: `api_key`, `startTime`
(`endTime` minus `6 * 24 * time.Hour` nanoseconds) and `endTime`,
rendered with layout `"2006-01-02 15:04:05"`, listed in the sorted key
order produced by `url.Values.Encode`. -/
def queryParams (s : SolarEdge) (off now : Int) : List (String × String) :=
  [("api_key", s.APIKey), ("endTime", goFormat off now),
   ("startTime", goFormat off (now - 518400000000000))]

/-- The request `Gather` issues when it reaches `http.Get`: note the
source calls `http.Get`, i.e. `http.DefaultClient`, not `s.client`. -/
def requestOf (s : SolarEdge) (off now : Int) : RequestInfo :=
  ⟨equipmentURLOf s, queryParams s off now, goDefaultClient⟩

/-- `SolarEdge.Gather`, step for step:
client lazy-init (`s.client.HTTPClient() == nil` check, lines 106-115);
URL composition and `url.Parse` (117-121);
`time.LoadLocation` with the error discarded, then `time.Now().In(loc)` —
which panics when the zone lookup failed and `loc` is `nil` (123-125);
query parameters `api_key`, `startTime = endTime - 6*24h`, `endTime`
(127-133);
`http.Get` — the package default client, not `s.client` (137);
status check (143-152); JSON decode (154-158); the telemetry loop
(160-186). -/
def gather (s : SolarEdge) (w : World) : CycleOutput :=
  let s1 := ensureClient s
  if containsCtl (equipmentURLOf s) = true then
    ⟨s1, none, [], .failed (.invalidURL (equipmentURLOf s))⟩
  else
    match w.resolveZone with
    | none => ⟨s1, none, [], .panicked "time: missing Location in call to Time.In"⟩
    | some off =>
      let req := requestOf s off w.now
      match w.response with
      | none => ⟨s1, some req, [], .failed .network⟩
      | some resp =>
        if resp.statusCode ≠ 200 then
          ⟨s1, some req, [], .failed (.unexpectedStatus resp.statusCode 200)⟩
        else
          match resp.body with
          | none => ⟨s1, some req, [], .failed (.decodeFailure "invalid JSON")⟩
          | some j =>
            match decodeEquipment j with
            | .error e => ⟨s1, some req, [], .failed (.decodeFailure e)⟩
            | .ok target =>
              let pr := mapTelemetries s.Name off w.responseTime target.data.telemetries
              match pr.2 with
              | some e => ⟨s1, some req, pr.1, .failed e⟩
              | none => ⟨s1, some req, pr.1, .ok⟩

/-- A concrete cycle environment for witnesses: zone resolves to UTC,
`now` is 2024-01-01 00:00:00 UTC, zero measured latency. -/
def fixtureWorld (resp : Option HTTPResponse) : World :=
  ⟨some 0, 1704067200000000000, resp, 0⟩

/-- A telemetry sample JSON object carrying only a date. -/
def teleJson (d : String) : Json := Json.obj [("date", Json.str d)]

/-- A response body with two samples, the second with a malformed date. -/
def twoSampleBody : Json :=
  Json.obj [("data", Json.obj [("count", Json.num 2),
    ("telemetries", Json.arr [teleJson "2024-01-01 00:00:00", teleJson "garbage"])])]

/-- A response body with one valid sample. -/
def oneSampleBody : Json :=
  Json.obj [("data", Json.obj [("count", Json.num 1),
    ("telemetries", Json.arr [teleJson "2024-01-01 00:00:00"])])]

/-- A response body with two valid samples and a matching count. -/
def twoGoodBody : Json :=
  Json.obj [("data", Json.obj [("count", Json.num 2),
    ("telemetries", Json.arr [teleJson "2024-01-01 00:00:00",
      teleJson "2024-01-01 00:05:00"])])]

/-- The same two samples but `count` 5, disagreeing with the sequence. -/
def countFiveBody : Json :=
  Json.obj [("data", Json.obj [("count", Json.num 5),
    ("telemetries", Json.arr [teleJson "2024-01-01 00:00:00",
      teleJson "2024-01-01 00:05:00"])])]

theorem yearYdayStep4_spec (y d : Int) (h0 : 0 ≤ d) (h1 : d ≤ 1460) :
    ∃ e r, yearYdayStep4 y d = (y + e, r) ∧ 0 ≤ e ∧ e ≤ 3 ∧
      d = 365 * e + r ∧ 0 ≤ r ∧ r ≤ 365 ∧ (r = 365 → e = 3 ∧ d = 1460) := by
  refine ⟨d / 365 - d / 365 / 4, d - 365 * (d / 365 - d / 365 / 4), ?_, ?_⟩
  · simp only [yearYdayStep4]
  · omega

theorem yearYdayStep3_spec (y d : Int) (h0 : 0 ≤ d) (h1 : d ≤ 36524) :
    ∃ c e r, yearYdayStep3 y d = (y + 4 * c + e, r) ∧ 0 ≤ c ∧ c ≤ 24 ∧
      0 ≤ e ∧ e ≤ 3 ∧ d = 1461 * c + 365 * e + r ∧ 0 ≤ r ∧ r ≤ 365 ∧
      (r = 365 → e = 3 ∧ (c = 24 → d = 36524)) := by
  have hb : 0 ≤ d - 1461 * (d / 1461) ∧ d - 1461 * (d / 1461) ≤ 1460 := by omega
  obtain ⟨e, r, heq, he0, he1, hd, hr0, hr1, hlast⟩ :=
    yearYdayStep4_spec (y + 4 * (d / 1461)) (d - 1461 * (d / 1461)) hb.1 hb.2
  refine ⟨d / 1461, e, r, ?_, ?_, ?_, he0, he1, ?_, hr0, hr1, ?_⟩
  · simp only [yearYdayStep3]
    exact heq
  · omega
  · omega
  · omega
  · intro h365
    obtain ⟨h3, h1460⟩ := hlast h365
    exact ⟨h3, fun hc => by omega⟩

theorem yearYdayStep2_spec (y d : Int) (h0 : 0 ≤ d) (h1 : d ≤ 146096) :
    ∃ b c e r, yearYdayStep2 y d = (y + 100 * b + 4 * c + e, r) ∧
      0 ≤ b ∧ b ≤ 3 ∧ 0 ≤ c ∧ c ≤ 24 ∧ 0 ≤ e ∧ e ≤ 3 ∧
      d = 36524 * b + 1461 * c + 365 * e + r ∧ 0 ≤ r ∧ r ≤ 365 ∧
      (r = 365 → e = 3 ∧ (c = 24 → b = 3)) := by
  have hnc : 0 ≤ d / 36524 - d / 36524 / 4 ∧ d / 36524 - d / 36524 / 4 ≤ 3 := by omega
  have hb : 0 ≤ d - 36524 * (d / 36524 - d / 36524 / 4) ∧
      d - 36524 * (d / 36524 - d / 36524 / 4) ≤ 36524 := by omega
  obtain ⟨c, e, r, heq, hc0, hc1, he0, he1, hd, hr0, hr1, hlast⟩ :=
    yearYdayStep3_spec (y + 100 * (d / 36524 - d / 36524 / 4))
      (d - 36524 * (d / 36524 - d / 36524 / 4)) hb.1 hb.2
  refine ⟨d / 36524 - d / 36524 / 4, c, e, r, ?_, hnc.1, hnc.2, hc0, hc1, he0, he1, ?_, hr0, hr1, ?_⟩
  · simp only [yearYdayStep2]
    exact heq
  · omega
  · intro h365
    obtain ⟨h3, h24⟩ := hlast h365
    refine ⟨h3, fun hc => ?_⟩
    have := h24 hc
    omega

theorem absYearYday_spec (d : Int) (h : 0 ≤ d) :
    ∃ a b c e r, absYearYday d = (400 * a + 100 * b + 4 * c + e + 1, r) ∧
      0 ≤ a ∧ 0 ≤ b ∧ b ≤ 3 ∧ 0 ≤ c ∧ c ≤ 24 ∧ 0 ≤ e ∧ e ≤ 3 ∧
      d = 146097 * a + 36524 * b + 1461 * c + 365 * e + r ∧ 0 ≤ r ∧ r ≤ 365 ∧
      (r = 365 → e = 3 ∧ (c = 24 → b = 3)) := by
  have hb : 0 ≤ d - 146097 * (d / 146097) ∧ d - 146097 * (d / 146097) ≤ 146096 := by omega
  obtain ⟨b, c, e, r, heq, hb0, hb1, hc0, hc1, he0, he1, hd, hr0, hr1, hlast⟩ :=
    yearYdayStep2_spec (400 * (d / 146097)) (d - 146097 * (d / 146097)) hb.1 hb.2
  refine ⟨d / 146097, b, c, e, r, ?_, ?_, hb0, hb1, hc0, hc1, he0, he1, ?_, hr0, hr1, hlast⟩
  · simp only [absYearYday, heq]
  · omega
  · omega

theorem isLeap_decomp (a b c e : Int) (hb : 0 ≤ b ∧ b ≤ 3) (hc : 0 ≤ c ∧ c ≤ 24)
    (he : 0 ≤ e ∧ e ≤ 3) :
    isLeap (400 * a + 100 * b + 4 * c + e + 1) = true ↔ (e = 3 ∧ (c = 24 → b = 3)) := by
  simp only [isLeap, Bool.and_eq_true, Bool.or_eq_true, decide_eq_true_eq]
  omega

theorem daysSinceYearOne_decomp (a b c e : Int) (hb : 0 ≤ b ∧ b ≤ 3)
    (hc : 0 ≤ c ∧ c ≤ 24) (he : 0 ≤ e ∧ e ≤ 3) :
    daysSinceYearOne (400 * a + 100 * b + 4 * c + e + 1) =
      146097 * a + 36524 * b + 1461 * c + 365 * e := by
  simp only [daysSinceYearOne]
  omega

theorem daysBefore_table :
    daysBefore 0 = 0 ∧ daysBefore 1 = 31 ∧ daysBefore 2 = 59 ∧ daysBefore 3 = 90 ∧
    daysBefore 4 = 120 ∧ daysBefore 5 = 151 ∧ daysBefore 6 = 181 ∧ daysBefore 7 = 212 ∧
    daysBefore 8 = 243 ∧ daysBefore 9 = 273 ∧ daysBefore 10 = 304 ∧ daysBefore 11 = 334 ∧
    daysBefore 12 = 365 := by
  norm_num [daysBefore]

theorem monthDayEstimate_spec (day : Int) (h0 : 0 ≤ day) (h1 : day ≤ 364) :
    ∃ m dd, monthDayEstimate day = (m, dd) ∧
      1 ≤ m ∧ m ≤ 12 ∧ 1 ≤ dd ∧ dd ≤ daysBefore m - daysBefore (m - 1) ∧
      daysBefore (m - 1) + dd - 1 = day ∧ (3 ≤ m ↔ 59 ≤ day) := by
  have htab := daysBefore_table
  simp only [monthDayEstimate]
  have hest : day / 31 = 0 ∨ day / 31 = 1 ∨ day / 31 = 2 ∨ day / 31 = 3 ∨ day / 31 = 4 ∨
      day / 31 = 5 ∨ day / 31 = 6 ∨ day / 31 = 7 ∨ day / 31 = 8 ∨ day / 31 = 9 ∨
      day / 31 = 10 ∨ day / 31 = 11 := by omega
  rcases hest with h | h | h | h | h | h | h | h | h | h | h | h <;>
    rw [h] <;> split <;> refine ⟨_, _, rfl, ?_⟩ <;>
    · norm_num [daysBefore] at *
      omega

theorem monthDayFromYday_spec (leap : Bool) (yd : Int) (h0 : 0 ≤ yd)
    (h1 : yd ≤ (if leap = true then 365 else 364)) :
    ∃ m dd, monthDayFromYday leap yd = (m, dd) ∧ 1 ≤ m ∧ m ≤ 12 ∧ 1 ≤ dd ∧
      dd ≤ (if m = 2 ∧ leap = true then 29 else daysBefore m - daysBefore (m - 1)) ∧
      daysBefore (m - 1) + (if leap = true ∧ 3 ≤ m then 1 else 0) + dd - 1 = yd := by
  have htab := daysBefore_table
  cases leap with
  | false =>
    have h364 : yd ≤ 364 := by simpa using h1
    obtain ⟨m, dd, heq, hm1, hm2, hd1, hd2, hinv, hreg⟩ := monthDayEstimate_spec yd h0 h364
    refine ⟨m, dd, ?_, hm1, hm2, hd1, ?_, ?_⟩
    · simp only [monthDayFromYday, Bool.false_eq_true, if_false]
      exact heq
    · rw [if_neg (by simp)]
      exact hd2
    · rw [if_neg (by simp)]
      omega
  | true =>
    have h365 : yd ≤ 365 := by simpa using h1
    by_cases h59 : yd = 59
    · subst h59
      refine ⟨2, 29, ?_, by norm_num, by norm_num, by norm_num, ?_, ?_⟩
      · simp [monthDayFromYday]
      · norm_num
      · norm_num
        omega
    · by_cases hgt : 59 < yd
      · have hb0 : 0 ≤ yd - 1 := by omega
        have hb1 : yd - 1 ≤ 364 := by omega
        obtain ⟨m, dd, heq, hm1, hm2, hd1, hd2, hinv, hreg⟩ :=
          monthDayEstimate_spec (yd - 1) hb0 hb1
        have hm3 : 3 ≤ m := hreg.2 (by omega)
        refine ⟨m, dd, ?_, hm1, hm2, hd1, ?_, ?_⟩
        · simp only [monthDayFromYday, if_pos rfl, if_neg h59, if_pos hgt]
          exact heq
        · rw [if_neg (by rintro ⟨h2, h3⟩; omega)]
          exact hd2
        · rw [if_pos ⟨rfl, hm3⟩]
          omega
      · obtain ⟨m, dd, heq, hm1, hm2, hd1, hd2, hinv, hreg⟩ :=
          monthDayEstimate_spec yd h0 (by omega)
        have hm2' : m ≤ 2 := by
          by_contra hcon
          exact absurd (hreg.1 (by omega)) (by omega)
        refine ⟨m, dd, ?_, hm1, hm2, hd1, ?_, ?_⟩
        · simp only [monthDayFromYday, if_pos rfl, if_neg h59, if_neg hgt]
          exact heq
        · by_cases hfeb : m = 2
          · rw [if_pos ⟨hfeb, rfl⟩]
            subst hfeb
            norm_num at hd2
            omega
          · rw [if_neg (by rintro ⟨h2, h3⟩; exact hfeb h2)]
            exact hd2
        · rw [if_neg (by rintro ⟨h2, h3⟩; omega)]
          omega

theorem civilFromAbsDays_spec (d : Int) (h : 0 ≤ d) :
    absDaysFromCivil (civilFromAbsDays d) = d ∧
      1 ≤ (civilFromAbsDays d).year ∧
      1 ≤ (civilFromAbsDays d).month ∧ (civilFromAbsDays d).month ≤ 12 ∧
      1 ≤ (civilFromAbsDays d).day ∧
      (civilFromAbsDays d).day ≤
        daysInMonth (civilFromAbsDays d).year (civilFromAbsDays d).month := by
  obtain ⟨a, b, c, e, r, heq, ha, hb0, hb1, hc0, hc1, he0, he1, hd, hr0, hr1, hlast⟩ :=
    absYearYday_spec d h
  have hleap := isLeap_decomp a b c e ⟨hb0, hb1⟩ ⟨hc0, hc1⟩ ⟨he0, he1⟩
  have hydbound : r ≤ (if isLeap (400 * a + 100 * b + 4 * c + e + 1) = true then 365 else 364) := by
    by_cases hl : isLeap (400 * a + 100 * b + 4 * c + e + 1) = true
    · rw [if_pos hl]
      exact hr1
    · rw [if_neg hl]
      rcases lt_or_eq_of_le hr1 with hlt | he365
      · omega
      · exact absurd (hleap.mpr (hlast he365)) hl
  obtain ⟨m, dd, hmd, hm1, hm2, hdd1, hdd2, hinv⟩ :=
    monthDayFromYday_spec (isLeap (400 * a + 100 * b + 4 * c + e + 1)) r hr0 hydbound
  have hciv : civilFromAbsDays d = ⟨400 * a + 100 * b + 4 * c + e + 1, m, dd⟩ := by
    simp only [civilFromAbsDays, heq, hmd]
  rw [hciv]
  have hdsy := daysSinceYearOne_decomp a b c e ⟨hb0, hb1⟩ ⟨hc0, hc1⟩ ⟨he0, he1⟩
  dsimp only
  refine ⟨?_, by omega, hm1, hm2, hdd1, ?_⟩
  · simp only [absDaysFromCivil]
    dsimp only
    rw [hdsy]
    omega
  · simp only [daysInMonth]
    by_cases hfeb : m = 2 ∧ isLeap (400 * a + 100 * b + 4 * c + e + 1) = true
    · rw [if_pos hfeb]
      rw [if_pos ⟨hfeb.1, hfeb.2⟩] at hdd2
      exact hdd2
    · rw [if_neg hfeb]
      rw [if_neg (by rintro ⟨h2, h3⟩; exact hfeb ⟨h2, h3⟩)] at hdd2
      exact hdd2

theorem dateTimeFromUnix_spec (off sec : Int) (h : 0 ≤ sec + off + 62135596800) :
    unixFromDateTime off (dateTimeFromUnix off sec) = sec ∧
      1 ≤ (dateTimeFromUnix off sec).year ∧
      1 ≤ (dateTimeFromUnix off sec).month ∧ (dateTimeFromUnix off sec).month ≤ 12 ∧
      1 ≤ (dateTimeFromUnix off sec).day ∧
      (dateTimeFromUnix off sec).day ≤
        daysInMonth (dateTimeFromUnix off sec).year (dateTimeFromUnix off sec).month ∧
      0 ≤ (dateTimeFromUnix off sec).hour ∧ (dateTimeFromUnix off sec).hour ≤ 23 ∧
      0 ≤ (dateTimeFromUnix off sec).minute ∧ (dateTimeFromUnix off sec).minute ≤ 59 ∧
      0 ≤ (dateTimeFromUnix off sec).second ∧ (dateTimeFromUnix off sec).second ≤ 59 := by
  have hdays : 0 ≤ (sec + off + 62135596800) / 86400 := by omega
  obtain ⟨hrt, hy, hm1, hm2, hd1, hd2⟩ := civilFromAbsDays_spec ((sec + off + 62135596800) / 86400) hdays
  simp only [dateTimeFromUnix, unixFromDateTime]
  refine ⟨?_, hy, hm1, hm2, hd1, hd2, by omega, by omega, by omega, by omega, by omega, by omega⟩
  have heta : (⟨(civilFromAbsDays ((sec + off + 62135596800) / 86400)).year,
      (civilFromAbsDays ((sec + off + 62135596800) / 86400)).month,
      (civilFromAbsDays ((sec + off + 62135596800) / 86400)).day⟩ : Civil) =
      civilFromAbsDays ((sec + off + 62135596800) / 86400) := rfl
  rw [heta, hrt]
  omega

theorem civilFromAbsDays_year_le (d : Int) (h : 0 ≤ d) (h2 : d ≤ 3652058) :
    (civilFromAbsDays d).year ≤ 9999 := by
  obtain ⟨a, b, c, e, r, heq, ha, hb0, hb1, hc0, hc1, he0, he1, hd, hr0, hr1, hlast⟩ :=
    absYearYday_spec d h
  simp only [civilFromAbsDays, heq]
  omega

theorem digitVal_digitChar (n : Nat) (h : n < 10) : digitVal (digitChar n) = some (n : Int) := by
  revert h
  revert n
  decide

theorem daysInMonth_le_31 (y m : Int) (h1 : 1 ≤ m) (h2 : m ≤ 12) : daysInMonth y m ≤ 31 := by
  have hm : m = 1 ∨ m = 2 ∨ m = 3 ∨ m = 4 ∨ m = 5 ∨ m = 6 ∨ m = 7 ∨ m = 8 ∨ m = 9 ∨
      m = 10 ∨ m = 11 ∨ m = 12 := by omega
  rcases hm with h | h | h | h | h | h | h | h | h | h | h | h <;> subst h <;>
    · simp only [daysInMonth]
      split <;> norm_num [daysBefore]

theorem decimalDigitsAux_fuel (m : Nat) : ∀ fuel, m < fuel →
    decimalDigitsAux fuel m = decimalDigits m := by
  induction m using Nat.strong_induction_on with
  | _ m ih =>
    intro fuel hf
    obtain ⟨f, rfl⟩ : ∃ f, fuel = f + 1 := ⟨fuel - 1, by omega⟩
    by_cases h : m < 10
    · simp [decimalDigitsAux, decimalDigits, h]
    · have hm10 : m / 10 < m := by omega
      have e1 : decimalDigitsAux f (m / 10) = decimalDigits (m / 10) :=
        ih (m / 10) hm10 f (by omega)
      have e2 : decimalDigitsAux m (m / 10) = decimalDigits (m / 10) :=
        ih (m / 10) hm10 m (by omega)
      calc decimalDigitsAux (f + 1) m
          = decimalDigitsAux f (m / 10) ++ [digitChar (m % 10)] := by
            simp [decimalDigitsAux, h]
        _ = decimalDigits (m / 10) ++ [digitChar (m % 10)] := by rw [e1]
        _ = decimalDigitsAux m (m / 10) ++ [digitChar (m % 10)] := by rw [e2]
        _ = decimalDigitsAux (m + 1) m := by simp [decimalDigitsAux, h]
        _ = decimalDigits m := rfl

theorem decimalDigits_lt10 (n : Nat) (h : n < 10) : decimalDigits n = [digitChar n] := by
  simp [decimalDigits, decimalDigitsAux, h]

theorem decimalDigits_step (n : Nat) (h : ¬ n < 10) :
    decimalDigits n = decimalDigits (n / 10) ++ [digitChar (n % 10)] := by
  have hone : decimalDigitsAux (n + 1) n =
      decimalDigitsAux n (n / 10) ++ [digitChar (n % 10)] := by
    simp [decimalDigitsAux, h]
  rw [decimalDigits, hone, decimalDigitsAux_fuel (n / 10) n (by omega)]

theorem appendInt4_eq_pad4 (y : Int) (h0 : 0 ≤ y) (h1 : y ≤ 9999) :
    appendInt4 y = pad4 y.toNat := by
  rw [appendInt4, if_neg (by omega)]
  have hn9999 : y.toNat ≤ 9999 := by omega
  by_cases ha : y.toNat < 10
  · rw [decimalDigits_lt10 y.toNat ha]
    simp only [leftPadZeros, List.length_singleton]
    rw [show (4 : Nat) - 1 = 3 from rfl,
      show List.replicate 3 (digitChar 0) = [digitChar 0, digitChar 0, digitChar 0] from rfl,
      pad4, show y.toNat / 1000 = 0 from by omega, show y.toNat / 100 % 10 = 0 from by omega,
      show y.toNat / 10 % 10 = 0 from by omega, show y.toNat % 10 = y.toNat from by omega]
    simp
  · by_cases hb : y.toNat < 100
    · rw [decimalDigits_step y.toNat (by omega), decimalDigits_lt10 (y.toNat / 10) (by omega)]
      simp only [leftPadZeros, List.cons_append, List.nil_append, List.length_cons,
        List.length_singleton, List.length_nil]
      rw [show (4 : Nat) - (0 + 1 + 1) = 2 from rfl,
        show List.replicate 2 (digitChar 0) = [digitChar 0, digitChar 0] from rfl,
        pad4, show y.toNat / 1000 = 0 from by omega,
        show y.toNat / 100 % 10 = 0 from by omega,
        show y.toNat / 10 % 10 = y.toNat / 10 from by omega]
      simp
    · by_cases hc : y.toNat < 1000
      · rw [decimalDigits_step y.toNat (by omega),
          decimalDigits_step (y.toNat / 10) (by omega),
          decimalDigits_lt10 (y.toNat / 10 / 10) (by omega)]
        simp only [leftPadZeros, List.cons_append, List.nil_append, List.length_cons,
          List.length_singleton, List.length_nil, List.append_assoc]
        rw [show (4 : Nat) - (0 + 1 + 1 + 1) = 1 from rfl,
          show List.replicate 1 (digitChar 0) = [digitChar 0] from rfl,
          pad4, show y.toNat / 1000 = 0 from by omega,
          show y.toNat / 10 / 10 = y.toNat / 100 % 10 from by omega]
        simp
      · rw [decimalDigits_step y.toNat (by omega),
          decimalDigits_step (y.toNat / 10) (by omega),
          decimalDigits_step (y.toNat / 10 / 10) (by omega),
          decimalDigits_lt10 (y.toNat / 10 / 10 / 10) (by omega)]
        simp only [leftPadZeros, List.cons_append, List.nil_append, List.length_cons,
          List.length_singleton, List.length_nil, List.append_assoc]
        rw [show (4 : Nat) - (0 + 1 + 1 + 1 + 1) = 0 from rfl,
          show List.replicate 0 (digitChar 0) = [] from rfl,
          pad4, show y.toNat / 10 / 10 / 10 = y.toNat / 1000 from by omega,
          show y.toNat / 10 / 10 = y.toNat / 100 from by omega]
        simp

theorem expectChar_cons (c : Char) (rest : List Char) :
    expectChar c (c :: rest) = some rest := by
  simp [expectChar]

theorem getnum2_pad2 (fixed : Bool) (n : Nat) (h : n < 100) (rest : List Char) :
    getnum2 fixed (pad2 n ++ rest) = some ((n : Int), rest) := by
  simp only [pad2, List.cons_append, List.nil_append, getnum2]
  rw [digitVal_digitChar (n / 10) (by omega), digitVal_digitChar (n % 10) (by omega)]
  dsimp only
  simp only [Option.some.injEq, Prod.mk.injEq]
  exact ⟨by omega, trivial⟩

theorem getnum2_pad2_nil (fixed : Bool) (n : Nat) (h : n < 100) :
    getnum2 fixed (pad2 n) = some ((n : Int), []) := by
  have hx := getnum2_pad2 fixed n h []
  simpa using hx

theorem getYear4_pad4 (n : Nat) (h : n < 10000) (rest : List Char) :
    getYear4 (pad4 n ++ rest) = some ((n : Int), rest) := by
  simp only [pad4, List.cons_append, List.nil_append, getYear4]
  rw [digitVal_digitChar (n / 1000) (by omega), digitVal_digitChar (n / 100 % 10) (by omega),
    digitVal_digitChar (n / 10 % 10) (by omega), digitVal_digitChar (n % 10) (by omega)]
  dsimp only
  simp only [Option.some.injEq, Prod.mk.injEq]
  exact ⟨by omega, trivial⟩

theorem parseChars_renderDateTime (dt : DateTime)
    (hy1 : 1 ≤ dt.year) (hy2 : dt.year ≤ 9999)
    (hm1 : 1 ≤ dt.month) (hm2 : dt.month ≤ 12)
    (hd1 : 1 ≤ dt.day) (hd2 : dt.day ≤ 31)
    (hh1 : 0 ≤ dt.hour) (hh2 : dt.hour ≤ 23)
    (hn1 : 0 ≤ dt.minute) (hn2 : dt.minute ≤ 59)
    (hs1 : 0 ≤ dt.second) (hs2 : dt.second ≤ 59) :
    parseChars (renderDateTime dt) = some (dt, 0) := by
  obtain ⟨Y, M, D, H, N, S⟩ := dt
  simp only at hy1 hy2 hm1 hm2 hd1 hd2 hh1 hh2 hn1 hn2 hs1 hs2
  simp only [renderDateTime]
  rw [appendInt4_eq_pad4 Y (by omega) (by omega)]
  simp only [parseChars]
  rw [getYear4_pad4 Y.toNat (by omega)]
  dsimp only
  rw [expectChar_cons]
  dsimp only
  rw [getnum2_pad2 true M.toNat (by omega)]
  dsimp only
  rw [expectChar_cons]
  dsimp only
  rw [getnum2_pad2 true D.toNat (by omega)]
  dsimp only
  rw [expectChar_cons]
  dsimp only
  rw [getnum2_pad2 false H.toNat (by omega)]
  dsimp only
  rw [expectChar_cons]
  dsimp only
  rw [getnum2_pad2 true N.toNat (by omega)]
  dsimp only
  rw [expectChar_cons]
  dsimp only
  rw [getnum2_pad2_nil true S.toNat (by omega)]
  dsimp only
  simp only [parseFrac]
  simp only [Option.some.injEq, Prod.mk.injEq, DateTime.mk.injEq]
  refine ⟨⟨?_, ?_, ?_, ?_, ?_, ?_⟩, trivial⟩ <;> omega

/-- C5 (amended): formatting an instant with the query builder's
`"2006-01-02 15:04:05"` layout in a fixed-offset zone and parsing the
resulting string back with the record mapper's `time.ParseInLocation`
in the same zone yields the original instant truncated to whole
seconds, provided the instant's wall-clock year in that zone has four
digits (years 1-9999) — the domain of the layout's `2006` element.
Outside it the round trip fails (see the year-10000 counterexample),
and in a zone with daylight-saving transitions a repeated wall time can
parse to the other occurrence of that wall time; fixed-offset zones, as
modelled here, have no such instants. -/
theorem C5_format_parse_roundtrip (off t : Int)
    (h1 : 0 ≤ t / 1000000000 + off + 62135596800)
    (h2 : t / 1000000000 + off + 62135596800 ≤ 315537897599) :
    goParseInLocation (goFormat off t) off = some (t / 1000000000 * 1000000000) := by
  obtain ⟨hrt, hy, hm1, hm2, hd1, hd2, hh1, hh2, hn1, hn2, hs1, hs2⟩ :=
    dateTimeFromUnix_spec off (t / 1000000000) h1
  have hy9999 : (dateTimeFromUnix off (t / 1000000000)).year ≤ 9999 := by
    simp only [dateTimeFromUnix]
    exact civilFromAbsDays_year_le _ (by omega) (by omega)
  have hd31 : (dateTimeFromUnix off (t / 1000000000)).day ≤ 31 :=
    le_trans hd2 (daysInMonth_le_31 _ _ hm1 hm2)
  have hpc := parseChars_renderDateTime (dateTimeFromUnix off (t / 1000000000))
    hy hy9999 hm1 hm2 hd1 hd31 hh1 hh2 hn1 hn2 hs1 hs2
  have hdata : (goFormat off t).data = renderDateTime (dateTimeFromUnix off (t / 1000000000)) := rfl
  simp only [goParseInLocation, hdata, hpc]
  rw [if_pos ⟨hm1, hm2, hd1, hd2, hh1, hh2, hn1, hn2, hs1, hs2⟩]
  rw [hrt]
  simp

/-- C5 counterexample: at 10000-01-01 00:00:00 UTC (Unix seconds
253402300800) the formatted string carries a five-digit year, which the
four-digit `2006` element of the parse layout rejects, so parsing
returns an error rather than the truncated instant: the round trip does
not hold for every instant. -/
theorem C5_counterexample :
    goParseInLocation (goFormat 0 253402300800000000000) 0 = none ∧
    goParseInLocation (goFormat 0 253402300800000000000) 0 ≠
      some (253402300800000000000 / 1000000000 * 1000000000) := by
  refine ⟨rfl, ?_⟩
  intro hcon
  rw [show goParseInLocation (goFormat 0 253402300800000000000) 0 = none from rfl] at hcon
  exact Option.noConfusion hcon

/-- Go's `15` layout element is parsed non-fixed: a single-digit hour is
accepted, so a string deviating from `YYYY-MM-DD HH:MM:SS` can still
parse. -/
theorem goParseInLocation_single_digit_hour :
    goParseInLocation "2024-01-01 9:05:06" 0 = some 1704099906000000000 := by rfl

/-- Go `time.Parse` accepts a fractional second even though the layout
has none. -/
theorem goParseInLocation_fractional_second :
    goParseInLocation "2024-01-01 00:00:00.5" 0 = some 1704067200500000000 := by rfl

theorem gather_invalidURL (s : SolarEdge) (w : World)
    (hurl : containsCtl (equipmentURLOf s) = true) :
    gather s w = ⟨ensureClient s, none, [], .failed (.invalidURL (equipmentURLOf s))⟩ := by
  simp only [gather, hurl, if_true]

theorem gather_panic (s : SolarEdge) (w : World)
    (hurl : containsCtl (equipmentURLOf s) = false) (hz : w.resolveZone = none) :
    gather s w = ⟨ensureClient s, none, [],
      .panicked "time: missing Location in call to Time.In"⟩ := by
  simp only [gather, hurl, Bool.false_eq_true, if_false, hz]

theorem gather_network (s : SolarEdge) (w : World) (off : Int)
    (hurl : containsCtl (equipmentURLOf s) = false) (hz : w.resolveZone = some off)
    (hr : w.response = none) :
    gather s w = ⟨ensureClient s, some (requestOf s off w.now), [], .failed .network⟩ := by
  simp only [gather, hurl, Bool.false_eq_true, if_false, hz, hr]

theorem gather_status (s : SolarEdge) (w : World) (off : Int) (resp : HTTPResponse)
    (hurl : containsCtl (equipmentURLOf s) = false) (hz : w.resolveZone = some off)
    (hr : w.response = some resp) (hc : resp.statusCode ≠ 200) :
    gather s w = ⟨ensureClient s, some (requestOf s off w.now), [],
      .failed (.unexpectedStatus resp.statusCode 200)⟩ := by
  simp only [gather, hurl, Bool.false_eq_true, if_false, hz, hr]
  rw [if_pos hc]

theorem gather_badBody (s : SolarEdge) (w : World) (off : Int) (resp : HTTPResponse)
    (hurl : containsCtl (equipmentURLOf s) = false) (hz : w.resolveZone = some off)
    (hr : w.response = some resp) (hc : resp.statusCode = 200) (hb : resp.body = none) :
    gather s w = ⟨ensureClient s, some (requestOf s off w.now), [],
      .failed (.decodeFailure "invalid JSON")⟩ := by
  simp only [gather, hurl, Bool.false_eq_true, if_false, hz, hr, hb]
  rw [if_neg (by simp [hc])]

theorem gather_decodeError (s : SolarEdge) (w : World) (off : Int) (resp : HTTPResponse)
    (j : Json) (e : String)
    (hurl : containsCtl (equipmentURLOf s) = false) (hz : w.resolveZone = some off)
    (hr : w.response = some resp) (hc : resp.statusCode = 200) (hb : resp.body = some j)
    (hd : decodeEquipment j = .error e) :
    gather s w = ⟨ensureClient s, some (requestOf s off w.now), [],
      .failed (.decodeFailure e)⟩ := by
  simp only [gather, hurl, Bool.false_eq_true, if_false, hz, hr, hb, hd]
  rw [if_neg (by simp [hc])]

theorem gather_map_err (s : SolarEdge) (w : World) (off : Int) (resp : HTTPResponse)
    (j : Json) (target : Equipment) (e : GatherError)
    (hurl : containsCtl (equipmentURLOf s) = false) (hz : w.resolveZone = some off)
    (hr : w.response = some resp) (hc : resp.statusCode = 200) (hb : resp.body = some j)
    (hd : decodeEquipment j = .ok target)
    (hm : (mapTelemetries s.Name off w.responseTime target.data.telemetries).2 = some e) :
    gather s w = ⟨ensureClient s, some (requestOf s off w.now),
      (mapTelemetries s.Name off w.responseTime target.data.telemetries).1,
      .failed e⟩ := by
  simp only [gather, hurl, Bool.false_eq_true, if_false, hz, hr, hb, hd, hm]
  rw [if_neg (by simp [hc])]

theorem gather_map_ok (s : SolarEdge) (w : World) (off : Int) (resp : HTTPResponse)
    (j : Json) (target : Equipment)
    (hurl : containsCtl (equipmentURLOf s) = false) (hz : w.resolveZone = some off)
    (hr : w.response = some resp) (hc : resp.statusCode = 200) (hb : resp.body = some j)
    (hd : decodeEquipment j = .ok target)
    (hm : (mapTelemetries s.Name off w.responseTime target.data.telemetries).2 = none) :
    gather s w = ⟨ensureClient s, some (requestOf s off w.now),
      (mapTelemetries s.Name off w.responseTime target.data.telemetries).1, .ok⟩ := by
  simp only [gather, hurl, Bool.false_eq_true, if_false, hz, hr, hb, hd, hm]
  rw [if_neg (by simp [hc])]

theorem mapTelemetries_all_some (name : String) (off : Int) (rt : Rat) (ts : List Telemetry)
    (h : ∀ t ∈ ts, (goParseInLocation t.date off).isSome = true) :
    (mapTelemetries name off rt ts).2 = none ∧
    (mapTelemetries name off rt ts).1 = ts.map
      (fun t => ⟨name, telemetryFields rt t, [], (goParseInLocation t.date off).getD 0⟩) := by
  induction ts with
  | nil => exact ⟨rfl, rfl⟩
  | cons t rest ih =>
    have ht := h t (by simp)
    obtain ⟨d, hd⟩ := Option.isSome_iff_exists.mp ht
    obtain ⟨ih2, ih1⟩ := ih (fun u hu => h u (by simp [hu]))
    simp only [mapTelemetries, hd]
    constructor
    · exact ih2
    · simp only [List.map_cons, hd, Option.getD_some]
      rw [ih1]

theorem telemetryFields_keys (rt : Rat) (t : Telemetry) :
    (telemetryFields rt t).map Prod.fst =
      ["response_time", "totalActivePower", "dcVoltage", "groundFaultResistance",
       "powerLimit", "totalEnergy", "temperature", "inverterMode", "acCurrent",
       "acVoltage", "acFrequency", "apparentPower", "activePower", "reactivePower",
       "cosPhi"] := rfl

theorem ensureClient_config (s : SolarEdge) :
    (ensureClient s).Name = s.Name ∧ (ensureClient s).SiteID = s.SiteID ∧
    (ensureClient s).SerialNumber = s.SerialNumber ∧ (ensureClient s).APIKey = s.APIKey ∧
    (ensureClient s).TimeZone = s.TimeZone ∧
    (ensureClient s).ResponseTimeout = s.ResponseTimeout ∧
    (ensureClient s).client = (if s.client = none then
      some ⟨s.ResponseTimeout, s.ResponseTimeout⟩ else s.client) := by
  by_cases h : s.client = none <;> simp [ensureClient, h]

theorem ensureClient_idem (s : SolarEdge) : ensureClient (ensureClient s) = ensureClient s := by
  by_cases h : s.client = none <;> simp [ensureClient, h]

theorem gather_state (s : SolarEdge) (w : World) : (gather s w).state = ensureClient s := by
  by_cases hurl : containsCtl (equipmentURLOf s) = true
  · rw [gather_invalidURL s w hurl]
  · have hurl' : containsCtl (equipmentURLOf s) = false := by
      simpa using hurl
    rcases hz : w.resolveZone with _ | off
    · rw [gather_panic s w hurl' hz]
    · rcases hr : w.response with _ | resp
      · rw [gather_network s w off hurl' hz hr]
      · by_cases hc : resp.statusCode = 200
        · rcases hb : resp.body with _ | j
          · rw [gather_badBody s w off resp hurl' hz hr hc hb]
          · rcases hd : decodeEquipment j with e | target
            · rw [gather_decodeError s w off resp j e hurl' hz hr hc hb hd]
            · rcases hm : (mapTelemetries s.Name off w.responseTime target.data.telemetries).2 with _ | e
              · rw [gather_map_ok s w off resp j target hurl' hz hr hc hb hd hm]
              · rw [gather_map_err s w off resp j target e hurl' hz hr hc hb hd hm]
        · rw [gather_status s w off resp hurl' hz hr hc]

theorem gather_request (s : SolarEdge) (w : World) (off : Int)
    (hurl : containsCtl (equipmentURLOf s) = false) (hz : w.resolveZone = some off) :
    (gather s w).request = some (requestOf s off w.now) := by
  rcases hr : w.response with _ | resp
  · rw [gather_network s w off hurl hz hr]
  · by_cases hc : resp.statusCode = 200
    · rcases hb : resp.body with _ | j
      · rw [gather_badBody s w off resp hurl hz hr hc hb]
      · rcases hd : decodeEquipment j with e | target
        · rw [gather_decodeError s w off resp j e hurl hz hr hc hb hd]
        · rcases hm : (mapTelemetries s.Name off w.responseTime target.data.telemetries).2 with _ | e
          · rw [gather_map_ok s w off resp j target hurl hz hr hc hb hd hm]
          · rw [gather_map_err s w off resp j target e hurl hz hr hc hb hd hm]
    · rw [gather_status s w off resp hurl hz hr hc]

theorem gather_client_opaque (s : SolarEdge) (w : World) (c1 c2 : HTTPClientModel) :
    (gather {s with client := some c1} w).request =
      (gather {s with client := some c2} w).request ∧
    (gather {s with client := some c1} w).emitted =
      (gather {s with client := some c2} w).emitted ∧
    (gather {s with client := some c1} w).result =
      (gather {s with client := some c2} w).result := by
  by_cases hurl : containsCtl (equipmentURLOf {s with client := some c1}) = true
  · rw [gather_invalidURL {s with client := some c1} w hurl,
      gather_invalidURL {s with client := some c2} w hurl]
    exact ⟨rfl, rfl, rfl⟩
  · have hurl' : containsCtl (equipmentURLOf {s with client := some c1}) = false := by
      simpa using hurl
    rcases hz : w.resolveZone with _ | off
    · rw [gather_panic {s with client := some c1} w hurl' hz,
        gather_panic {s with client := some c2} w hurl' hz]
      exact ⟨rfl, rfl, rfl⟩
    · rcases hr : w.response with _ | resp
      · rw [gather_network {s with client := some c1} w off hurl' hz hr,
          gather_network {s with client := some c2} w off hurl' hz hr]
        exact ⟨rfl, rfl, rfl⟩
      · by_cases hc : resp.statusCode = 200
        · rcases hb : resp.body with _ | j
          · rw [gather_badBody {s with client := some c1} w off resp hurl' hz hr hc hb,
              gather_badBody {s with client := some c2} w off resp hurl' hz hr hc hb]
            exact ⟨rfl, rfl, rfl⟩
          · rcases hd : decodeEquipment j with e | target
            · rw [gather_decodeError {s with client := some c1} w off resp j e hurl' hz hr hc hb hd,
                gather_decodeError {s with client := some c2} w off resp j e hurl' hz hr hc hb hd]
              exact ⟨rfl, rfl, rfl⟩
            · rcases hm : (mapTelemetries s.Name off w.responseTime
                  target.data.telemetries).2 with _ | e
              · rw [gather_map_ok {s with client := some c1} w off resp j target hurl' hz hr hc hb hd hm,
                  gather_map_ok {s with client := some c2} w off resp j target hurl' hz hr hc hb hd hm]
                exact ⟨rfl, rfl, rfl⟩
              · rw [gather_map_err {s with client := some c1} w off resp j target e hurl' hz hr hc hb hd hm,
                  gather_map_err {s with client := some c2} w off resp j target e hurl' hz hr hc hb hd hm]
                exact ⟨rfl, rfl, rfl⟩
        · rw [gather_status {s with client := some c1} w off resp hurl' hz hr hc,
            gather_status {s with client := some c2} w off resp hurl' hz hr hc]
          exact ⟨rfl, rfl, rfl⟩

theorem decodeEquipment_no_data (kvs : List (String × Json))
    (h : ∀ k ∈ kvs.map Prod.fst, equalFold k "data" = false) :
    decodeEquipment (Json.obj kvs) = .ok zeroEquipment := by
  have hgen : ∀ (l : List (String × Json)) (acc : Equipment),
      (∀ k ∈ l.map Prod.fst, equalFold k "data" = false) →
      l.foldlM (fun acc kv => applyEquipmentKey acc kv.1 kv.2) acc = .ok acc := by
    intro l
    induction l with
    | nil => intro acc _; rfl
    | cons kv rest ih =>
      intro acc hnot
      have hk : equalFold kv.1 "data" = false := hnot kv.1 (by simp)
      have hstep : applyEquipmentKey acc kv.1 kv.2 = .ok acc := by
        simp [applyEquipmentKey, hk]
      simp only [List.foldlM_cons, hstep]
      exact ih acc (fun k hm => hnot k (by simp [hm]))
  exact hgen kvs zeroEquipment h

/-- C1 counterexample: on a decoded response with two samples whose second
date string is malformed, the cycle returns a timestamp parse error but
ONE point — the one built from the first, valid sample — has already
reached the accumulator: the claim's "zero EmittedPoints reach the sink"
is false, because `Gather` calls `acc.AddFields` inside the loop, before
the later sample's parse failure. -/
theorem C1_counterexample :
    (gather defaultSolarEdge (fixtureWorld (some ⟨200, some twoSampleBody⟩))).result =
      .failed (.timestampParse "garbage") ∧
    (gather defaultSolarEdge (fixtureWorld (some ⟨200, some twoSampleBody⟩))).emitted.length
      = 1 := by
  exact ⟨rfl, rfl⟩

/-- C1 (amended): for every decoded response containing two samples where
the first sample's date parses and the second does not, the cycle returns
a TimestampParseError and the failing sample and everything after it
produce no points, but the point produced from the first (valid) sample
has already been handed to the sink: exactly one EmittedPoint is emitted,
not zero. -/
theorem C1_amended (s : SolarEdge) (w : World) (off : Int) (resp : HTTPResponse)
    (j : Json) (target : Equipment) (t1 t2 : Telemetry) (d1 : Int)
    (hurl : containsCtl (equipmentURLOf s) = false)
    (hz : w.resolveZone = some off) (hr : w.response = some resp)
    (hc : resp.statusCode = 200) (hb : resp.body = some j)
    (hd : decodeEquipment j = .ok target)
    (hts : target.data.telemetries = [t1, t2])
    (hp1 : goParseInLocation t1.date off = some d1)
    (hp2 : goParseInLocation t2.date off = none) :
    (gather s w).result = .failed (.timestampParse t2.date) ∧
    (gather s w).emitted = [⟨s.Name, telemetryFields w.responseTime t1, [], d1⟩] := by
  have hmap : mapTelemetries s.Name off w.responseTime [t1, t2] =
      ([⟨s.Name, telemetryFields w.responseTime t1, [], d1⟩],
        some (.timestampParse t2.date)) := by
    simp only [mapTelemetries, hp1, hp2]
  rw [gather_map_err s w off resp j target (.timestampParse t2.date) hurl hz hr hc hb hd
    (by rw [hts, hmap])]
  refine ⟨rfl, ?_⟩
  rw [hts, hmap]

/-- C1 amended witness: the concrete two-sample response realizes the
amended claim, with one point emitted. -/
theorem C1_amended_witness :
    (gather defaultSolarEdge (fixtureWorld (some ⟨200, some twoSampleBody⟩))).result =
      .failed (.timestampParse "garbage") ∧
    (gather defaultSolarEdge (fixtureWorld (some ⟨200, some twoSampleBody⟩))).emitted =
      [⟨"", telemetryFields 0 {zeroTelemetry with date := "2024-01-01 00:00:00"}, [],
        1704067200000000000⟩] :=
  C1_amended defaultSolarEdge (fixtureWorld (some ⟨200, some twoSampleBody⟩)) 0
    ⟨200, some twoSampleBody⟩ twoSampleBody
    ⟨⟨2, [{zeroTelemetry with date := "2024-01-01 00:00:00"},
          {zeroTelemetry with date := "garbage"}]⟩⟩
    {zeroTelemetry with date := "2024-01-01 00:00:00"}
    {zeroTelemetry with date := "garbage"} 1704067200000000000
    rfl rfl rfl rfl rfl rfl rfl rfl rfl

/-- C2: when the configured time-zone name does not resolve,
`time.LoadLocation` returns a `nil` location and an error that `Gather`
discards; the cycle then calls `time.Now().In(nil)`, which panics — it
does NOT fall back to a UTC-equivalent zone and proceed.  The claim holds
for the code's evident intent (the error is deliberately discarded) but
the code crashes instead of falling back. -/
theorem C2_zone_failure_panics (s : SolarEdge) (w : World)
    (hurl : containsCtl (equipmentURLOf s) = false)
    (hz : w.resolveZone = none) :
    (gather s w).result = .panicked "time: missing Location in call to Time.In" ∧
    (gather s w).emitted = [] ∧ (gather s w).request = none := by
  rw [gather_panic s w hurl hz]
  exact ⟨rfl, rfl, rfl⟩

/-- C2 witness: the default collector with an unresolvable zone panics. -/
theorem C2_zone_failure_panics_witness :
    (gather defaultSolarEdge ⟨none, 0, none, 0⟩).result =
      .panicked "time: missing Location in call to Time.In" ∧
    (gather defaultSolarEdge ⟨none, 0, none, 0⟩).emitted = [] ∧
    (gather defaultSolarEdge ⟨none, 0, none, 0⟩).request = none :=
  C2_zone_failure_panics defaultSolarEdge ⟨none, 0, none, 0⟩ rfl rfl

/-- C3: the collector's client is lazily initialized with response-header
timeout and overall timeout both set to `ResponseTimeout`, but the
blocking GET is issued by `http.Get`, i.e. the package-level
`http.DefaultClient`, whose two timeouts are zero (unbounded) — and the
stored client is never consulted (the cycle's request, points and outcome
are unchanged by its contents).  So the call is NOT bounded by
`ResponseTimeout`, contrary to the claim. -/
theorem C3_get_uses_default_client (s : SolarEdge) (w : World)
    (hcl : s.client = none) :
    (gather s w).state.client = some ⟨s.ResponseTimeout, s.ResponseTimeout⟩ ∧
    (∀ req, (gather s w).request = some req → req.clientUsed = goDefaultClient) ∧
    goDefaultClient.responseHeaderTimeout = 0 ∧ goDefaultClient.timeout = 0 ∧
    (∀ c1 c2 : HTTPClientModel,
      (gather {s with client := some c1} w).request =
        (gather {s with client := some c2} w).request ∧
      (gather {s with client := some c1} w).emitted =
        (gather {s with client := some c2} w).emitted ∧
      (gather {s with client := some c1} w).result =
        (gather {s with client := some c2} w).result) := by
  refine ⟨?_, ?_, rfl, rfl, fun c1 c2 => gather_client_opaque s w c1 c2⟩
  · rw [gather_state]
    simp [ensureClient, hcl]
  · intro req hreq
    by_cases hurl : containsCtl (equipmentURLOf s) = true
    · rw [gather_invalidURL s w hurl] at hreq
      exact absurd hreq (by simp)
    · have hurl' : containsCtl (equipmentURLOf s) = false := by simpa using hurl
      rcases hz : w.resolveZone with _ | off
      · rw [gather_panic s w hurl' hz] at hreq
        exact absurd hreq (by simp)
      · rw [gather_request s w off hurl' hz] at hreq
        have : req = requestOf s off w.now := by
          injection hreq with h
          exact h.symm
        rw [this]
        rfl

/-- C3 witness: the default collector's first cycle stores a client with
both timeouts 5s, yet the GET goes through the zero-timeout default
client. -/
theorem C3_get_uses_default_client_witness :
    (gather defaultSolarEdge (fixtureWorld none)).state.client =
      some ⟨5000000000, 5000000000⟩ ∧
    (∀ req, (gather defaultSolarEdge (fixtureWorld none)).request = some req →
      req.clientUsed = goDefaultClient) ∧
    goDefaultClient.responseHeaderTimeout = 0 ∧ goDefaultClient.timeout = 0 ∧
    (∀ c1 c2 : HTTPClientModel,
      (gather {defaultSolarEdge with client := some c1} (fixtureWorld none)).request =
        (gather {defaultSolarEdge with client := some c2} (fixtureWorld none)).request ∧
      (gather {defaultSolarEdge with client := some c1} (fixtureWorld none)).emitted =
        (gather {defaultSolarEdge with client := some c2} (fixtureWorld none)).emitted ∧
      (gather {defaultSolarEdge with client := some c1} (fixtureWorld none)).result =
        (gather {defaultSolarEdge with client := some c2} (fixtureWorld none)).result) :=
  C3_get_uses_default_client defaultSolarEdge (fixtureWorld none) rfl

/-- C4: past zone resolution, the cycle's request carries `startTime` and
`endTime` query parameters rendering, in the resolved zone with layout
`"2006-01-02 15:04:05"`, the invocation instant and the invocation
instant minus exactly 144 hours (6×24h in nanoseconds, no calendar-aware
rounding) — alongside `api_key`, in `url.Values.Encode` key order. -/
theorem C4_query_window (s : SolarEdge) (w : World) (off : Int)
    (hurl : containsCtl (equipmentURLOf s) = false)
    (hz : w.resolveZone = some off) :
    ∃ req, (gather s w).request = some req ∧
      req.path = equipmentURLOf s ∧
      req.params = [("api_key", s.APIKey), ("endTime", goFormat off w.now),
        ("startTime", goFormat off (w.now - 144 * (3600 * 1000000000)))] := by
  refine ⟨requestOf s off w.now, gather_request s w off hurl hz, rfl, ?_⟩
  simp only [requestOf, queryParams]
  norm_num

/-- C4 witness: the default collector's request at the fixture instant. -/
theorem C4_query_window_witness :
    ∃ req, (gather defaultSolarEdge (fixtureWorld none)).request = some req ∧
      req.path = equipmentURLOf defaultSolarEdge ∧
      req.params = [("api_key", ""), ("endTime", goFormat 0 1704067200000000000),
        ("startTime", goFormat 0 (1704067200000000000 - 144 * (3600 * 1000000000)))] :=
  C4_query_window defaultSolarEdge (fixtureWorld none) 0 rfl rfl

/-- C5 witness: a concrete instant with sub-second nanoseconds in zone
UTC+1 round-trips to its whole-second truncation. -/
theorem C5_format_parse_roundtrip_witness :
    goParseInLocation (goFormat 3600 1704067200123456789) 3600 =
      some (1704067200123456789 / 1000000000 * 1000000000) :=
  C5_format_parse_roundtrip 3600 1704067200123456789 (by decide) (by decide)

/-- C6: a response with a non-200 status code fails the cycle with
`UnexpectedStatusError` carrying the received code and the expected 200,
emits no points, and the response body is never decoded — the entire
cycle output is unchanged under any substitution of the body. -/
theorem C6_unexpected_status (s : SolarEdge) (w : World) (off : Int) (resp : HTTPResponse)
    (hurl : containsCtl (equipmentURLOf s) = false)
    (hz : w.resolveZone = some off) (hr : w.response = some resp)
    (hc : resp.statusCode ≠ 200) :
    (gather s w).result = .failed (.unexpectedStatus resp.statusCode 200) ∧
    (gather s w).emitted = [] ∧
    (∀ b1 b2, gather s {w with response := some ⟨resp.statusCode, b1⟩} =
      gather s {w with response := some ⟨resp.statusCode, b2⟩}) := by
  rw [gather_status s w off resp hurl hz hr hc]
  refine ⟨rfl, rfl, ?_⟩
  intro b1 b2
  rw [gather_status s {w with response := some ⟨resp.statusCode, b1⟩} off
      ⟨resp.statusCode, b1⟩ hurl hz rfl hc,
    gather_status s {w with response := some ⟨resp.statusCode, b2⟩} off
      ⟨resp.statusCode, b2⟩ hurl hz rfl hc]

/-- C6 witness: a 503 response yields `UnexpectedStatusError{503, 200}`
and zero points, whatever the body. -/
theorem C6_unexpected_status_witness :
    (gather defaultSolarEdge (fixtureWorld (some ⟨503, some (Json.obj [])⟩))).result =
      .failed (.unexpectedStatus 503 200) ∧
    (gather defaultSolarEdge (fixtureWorld (some ⟨503, some (Json.obj [])⟩))).emitted = [] ∧
    (∀ b1 b2, gather defaultSolarEdge
        {fixtureWorld (some ⟨503, some (Json.obj [])⟩) with response := some ⟨503, b1⟩} =
      gather defaultSolarEdge
        {fixtureWorld (some ⟨503, some (Json.obj [])⟩) with response := some ⟨503, b2⟩}) :=
  C6_unexpected_status defaultSolarEdge (fixtureWorld (some ⟨503, some (Json.obj [])⟩)) 0
    ⟨503, some (Json.obj [])⟩ rfl rfl rfl (by decide)

/-- C7: when the response decodes and every sample's date parses, the
cycle succeeds and emits exactly one point per sample, in input order,
each with exactly the fifteen fields of the source's `fields` map (in
insertion order) and an empty tag set. -/
theorem C7_one_point_per_sample (s : SolarEdge) (w : World) (off : Int)
    (resp : HTTPResponse) (j : Json) (target : Equipment)
    (hurl : containsCtl (equipmentURLOf s) = false)
    (hz : w.resolveZone = some off) (hr : w.response = some resp)
    (hc : resp.statusCode = 200) (hb : resp.body = some j)
    (hd : decodeEquipment j = .ok target)
    (hp : ∀ t ∈ target.data.telemetries, (goParseInLocation t.date off).isSome = true) :
    (gather s w).result = .ok ∧
    (gather s w).emitted = target.data.telemetries.map
      (fun t => ⟨s.Name, telemetryFields w.responseTime t, [],
        (goParseInLocation t.date off).getD 0⟩) ∧
    (∀ p ∈ (gather s w).emitted,
      p.fields.map Prod.fst = ["response_time", "totalActivePower", "dcVoltage",
        "groundFaultResistance", "powerLimit", "totalEnergy", "temperature",
        "inverterMode", "acCurrent", "acVoltage", "acFrequency", "apparentPower",
        "activePower", "reactivePower", "cosPhi"] ∧ p.tags = []) := by
  obtain ⟨hm2, hm1⟩ := mapTelemetries_all_some s.Name off w.responseTime
    target.data.telemetries hp
  rw [gather_map_ok s w off resp j target hurl hz hr hc hb hd hm2]
  refine ⟨rfl, hm1, ?_⟩
  intro p hp'
  rw [show (⟨ensureClient s, some (requestOf s off w.now),
      (mapTelemetries s.Name off w.responseTime target.data.telemetries).1,
      .ok⟩ : CycleOutput).emitted =
    (mapTelemetries s.Name off w.responseTime target.data.telemetries).1 from rfl, hm1] at hp'
  obtain ⟨t, ht, rfl⟩ := List.mem_map.mp hp'
  exact ⟨rfl, rfl⟩

/-- C7 witness: a one-sample response yields exactly one point with the
fifteen fields and no tags. -/
theorem C7_one_point_per_sample_witness :
    (gather defaultSolarEdge (fixtureWorld (some ⟨200, some oneSampleBody⟩))).result = .ok ∧
    (gather defaultSolarEdge (fixtureWorld (some ⟨200, some oneSampleBody⟩))).emitted =
      ([{zeroTelemetry with date := "2024-01-01 00:00:00"}] : List Telemetry).map
        (fun t => ⟨"", telemetryFields 0 t, [], (goParseInLocation t.date 0).getD 0⟩) ∧
    (∀ p ∈ (gather defaultSolarEdge (fixtureWorld (some ⟨200, some oneSampleBody⟩))).emitted,
      p.fields.map Prod.fst = ["response_time", "totalActivePower", "dcVoltage",
        "groundFaultResistance", "powerLimit", "totalEnergy", "temperature",
        "inverterMode", "acCurrent", "acVoltage", "acFrequency", "apparentPower",
        "activePower", "reactivePower", "cosPhi"] ∧ p.tags = []) :=
  C7_one_point_per_sample defaultSolarEdge (fixtureWorld (some ⟨200, some oneSampleBody⟩)) 0
    ⟨200, some oneSampleBody⟩ oneSampleBody
    ⟨⟨1, [{zeroTelemetry with date := "2024-01-01 00:00:00"}]⟩⟩
    rfl rfl rfl rfl rfl rfl (by decide)

/-- C8: a cycle leaves every configuration field unchanged; the only
collector-owned state it writes is the client, set exactly when it was
uninitialized, and any later cycle leaves the client as the first cycle
set it. -/
theorem C8_frame (s : SolarEdge) (w : World) :
    (gather s w).state.Name = s.Name ∧ (gather s w).state.SiteID = s.SiteID ∧
    (gather s w).state.SerialNumber = s.SerialNumber ∧
    (gather s w).state.APIKey = s.APIKey ∧
    (gather s w).state.TimeZone = s.TimeZone ∧
    (gather s w).state.ResponseTimeout = s.ResponseTimeout ∧
    (gather s w).state.client = (if s.client = none then
      some ⟨s.ResponseTimeout, s.ResponseTimeout⟩ else s.client) ∧
    (∀ w', (gather (gather s w).state w').state.client = (gather s w).state.client) := by
  have h := ensureClient_config s
  simp only [gather_state, ensureClient_idem]
  exact ⟨h.1, h.2.1, h.2.2.1, h.2.2.2.1, h.2.2.2.2.1, h.2.2.2.2.2.1, h.2.2.2.2.2.2,
    fun w' => trivial⟩

/-- C9: decoding is permissive about absent keys: an empty JSON object —
and any object none of whose keys matches `data` under `encoding/json`'s
field matching (exact or case-insensitive) — decodes to the zero-valued
`Equipment` (count 0, no telemetries) with no error, and the cycle then
succeeds emitting zero points. -/
theorem C9_empty_object_decodes (s : SolarEdge) (w : World) (off : Int)
    (resp : HTTPResponse)
    (hurl : containsCtl (equipmentURLOf s) = false)
    (hz : w.resolveZone = some off) (hr : w.response = some resp)
    (hc : resp.statusCode = 200) (hb : resp.body = some (Json.obj [])) :
    decodeEquipment (Json.obj []) = .ok zeroEquipment ∧
    zeroEquipment.data.count = 0 ∧ zeroEquipment.data.telemetries = [] ∧
    (gather s w).result = .ok ∧ (gather s w).emitted = [] ∧
    (∀ kvs, (∀ k ∈ kvs.map Prod.fst, equalFold k "data" = false) →
      decodeEquipment (Json.obj kvs) = .ok zeroEquipment) := by
  refine ⟨rfl, rfl, rfl, ?_, ?_, fun kvs h => decodeEquipment_no_data kvs h⟩
  · rw [gather_map_ok s w off resp (Json.obj []) zeroEquipment hurl hz hr hc hb rfl rfl]
  · rw [gather_map_ok s w off resp (Json.obj []) zeroEquipment hurl hz hr hc hb rfl rfl]
    rfl

/-- C9 witness: the empty-object body on the fixture cycle. -/
theorem C9_empty_object_decodes_witness :
    decodeEquipment (Json.obj []) = .ok zeroEquipment ∧
    zeroEquipment.data.count = 0 ∧ zeroEquipment.data.telemetries = [] ∧
    (gather defaultSolarEdge (fixtureWorld (some ⟨200, some (Json.obj [])⟩))).result = .ok ∧
    (gather defaultSolarEdge (fixtureWorld (some ⟨200, some (Json.obj [])⟩))).emitted = [] ∧
    (∀ kvs, (∀ k ∈ kvs.map Prod.fst, equalFold k "data" = false) →
      decodeEquipment (Json.obj kvs) = .ok zeroEquipment) :=
  C9_empty_object_decodes defaultSolarEdge (fixtureWorld (some ⟨200, some (Json.obj [])⟩)) 0
    ⟨200, some (Json.obj [])⟩ rfl rfl rfl rfl rfl

/-- C10: the emitted-point count equals the decoded sample count and is
independent of the decoded `count` field: two responses decoding to the
same telemetry sequence but different counts produce identical points and
outcome, and (with every date parseable) exactly one point per sample
with no error. -/
theorem C10_count_never_consulted (s : SolarEdge) (w w' : World) (off : Int)
    (resp resp' : HTTPResponse) (j j' : Json) (target target' : Equipment)
    (hurl : containsCtl (equipmentURLOf s) = false)
    (hz : w.resolveZone = some off) (hz' : w'.resolveZone = some off)
    (hrt : w'.responseTime = w.responseTime)
    (hr : w.response = some resp) (hr' : w'.response = some resp')
    (hc : resp.statusCode = 200) (hc' : resp'.statusCode = 200)
    (hb : resp.body = some j) (hb' : resp'.body = some j')
    (hd : decodeEquipment j = .ok target) (hd' : decodeEquipment j' = .ok target')
    (hsame : target'.data.telemetries = target.data.telemetries)
    (hp : ∀ t ∈ target.data.telemetries, (goParseInLocation t.date off).isSome = true) :
    (gather s w).emitted.length = target.data.telemetries.length ∧
    (gather s w).result = .ok ∧
    (gather s w').emitted = (gather s w).emitted ∧
    (gather s w').result = (gather s w).result := by
  obtain ⟨hm2, hm1⟩ := mapTelemetries_all_some s.Name off w.responseTime
    target.data.telemetries hp
  have hm2' : (mapTelemetries s.Name off w'.responseTime target'.data.telemetries).2 =
      none := by
    rw [hsame, hrt]
    exact hm2
  rw [gather_map_ok s w off resp j target hurl hz hr hc hb hd hm2,
    gather_map_ok s w' off resp' j' target' hurl hz' hr' hc' hb' hd' hm2']
  refine ⟨?_, rfl, ?_, rfl⟩
  · show (mapTelemetries s.Name off w.responseTime target.data.telemetries).1.length = _
    rw [hm1, List.length_map]
  · show (mapTelemetries s.Name off w'.responseTime target'.data.telemetries).1 =
      (mapTelemetries s.Name off w.responseTime target.data.telemetries).1
    rw [hsame, hrt]

/-- C10 witness: `count` 5 with 2 samples behaves exactly like `count` 2
with the same samples: two points, no error. -/
theorem C10_count_never_consulted_witness :
    (gather defaultSolarEdge (fixtureWorld (some ⟨200, some twoGoodBody⟩))).emitted.length =
      ([{zeroTelemetry with date := "2024-01-01 00:00:00"},
        {zeroTelemetry with date := "2024-01-01 00:05:00"}] : List Telemetry).length ∧
    (gather defaultSolarEdge (fixtureWorld (some ⟨200, some twoGoodBody⟩))).result = .ok ∧
    (gather defaultSolarEdge (fixtureWorld (some ⟨200, some countFiveBody⟩))).emitted =
      (gather defaultSolarEdge (fixtureWorld (some ⟨200, some twoGoodBody⟩))).emitted ∧
    (gather defaultSolarEdge (fixtureWorld (some ⟨200, some countFiveBody⟩))).result =
      (gather defaultSolarEdge (fixtureWorld (some ⟨200, some twoGoodBody⟩))).result :=
  C10_count_never_consulted defaultSolarEdge
    (fixtureWorld (some ⟨200, some twoGoodBody⟩))
    (fixtureWorld (some ⟨200, some countFiveBody⟩)) 0
    ⟨200, some twoGoodBody⟩ ⟨200, some countFiveBody⟩ twoGoodBody countFiveBody
    ⟨⟨2, [{zeroTelemetry with date := "2024-01-01 00:00:00"},
          {zeroTelemetry with date := "2024-01-01 00:05:00"}]⟩⟩
    ⟨⟨5, [{zeroTelemetry with date := "2024-01-01 00:00:00"},
          {zeroTelemetry with date := "2024-01-01 00:05:00"}]⟩⟩
    rfl rfl rfl rfl rfl rfl rfl rfl rfl rfl rfl rfl rfl (by decide)

end Solaredge
